import Mathlib

/-!
Verification of the query-orchestration service (`main.py`, `configparse.py`).

The Python code is shallowly embedded: strings are `String`/`List Char`,
Python `str.split`/`str.strip`/`in` are modelled character-exactly, JSON
values are the inductive `Jval`, the network is an oracle
`HttpRequest → HttpOutcome` (one outcome per issued request, after any
redirect handling by the HTTP library), and the configuration file is an
oracle `String → String → Option String` (section name and key to value).
Fallible Python code is modelled with `Except`/`Option`; the keyword
arguments of the single outbound HTTP call are recorded in the issued
`HttpRequest` so that theorems can speak about them.
-/

/-- First index at which `sep` occurs as a contiguous block of `s`
(`none` when it does not occur). This is the scan Python performs for
both `sep in s` and `s.split(sep)`. -/
def firstOcc (sep s : List Char) : Option Nat :=
  if sep.isPrefixOf s then some 0
  else match s with
    | [] => none
    | _ :: rest => (firstOcc sep rest).map (· + 1)

/-- Split `s` at the first occurrence of `sep`: the part strictly before it
and the part strictly after it. `none` when `sep` does not occur. -/
def listSplitFirst (sep s : List Char) : Option (List Char × List Char) :=
  if sep.isPrefixOf s then some ([], s.drop sep.length)
  else match s with
    | [] => none
    | c :: rest => (listSplitFirst sep rest).map fun p => (c :: p.1, p.2)

/-- Python `s.split(sep)[0]`: the text before the first occurrence of
`sep`, or all of `s` when `sep` does not occur. -/
def pySplit0 (sep s : List Char) : List Char :=
  match listSplitFirst sep s with
  | none => s
  | some p => p.1

/-- Python `s.split(sep)[1]`: the text strictly between the first and the
second (non-overlapping) occurrence of `sep`, or to the end of `s` when
`sep` occurs only once. `none` when `sep` does not occur at all (in Python
that indexing would raise `IndexError`). -/
def pySplit1 (sep s : List Char) : Option (List Char) :=
  (listSplitFirst sep s).map fun p => pySplit0 sep p.2

/-- Python `sub in s` (substring containment). -/
def pyIn (sub s : List Char) : Bool :=
  (firstOcc sub s).isSome

/-- Python `s.strip()`: remove whitespace characters from both ends. -/
def pyStrip (s : List Char) : List Char :=
  ((s.dropWhile Char.isWhitespace).reverse.dropWhile Char.isWhitespace).reverse

/-- Python `s.strip(chars)`: remove any character in `chars` from both ends. -/
def pyStripChars (chars s : List Char) : List Char :=
  ((s.dropWhile (chars.contains ·)).reverse.dropWhile (chars.contains ·)).reverse

/-- JSON values, as carried by request and response bodies. -/
inductive Jval where
  | str : String → Jval
  | num : Int → Jval
  | bool : Bool → Jval
  | null : Jval
  | arr : List Jval → Jval
  | obj : List (String × Jval) → Jval

/-- The Python dict `{"error": msg}` that `execute_task` builds on each of
its failure paths. -/
def errObj (msg : String) : Jval :=
  Jval.obj [("error", Jval.str msg)]

/-- Whether a JSON value has exactly the shape of an `execute_task` error
dict: a one-entry object whose key is `error` with a string value. -/
def isErrorDict : Jval → Bool
  | Jval.obj ((k, Jval.str _) :: []) => k == "error"
  | _ => false

/-- One outbound HTTP POST as issued by `requests.post` in
`execute_task`, with the keyword arguments it is called with: the JSON
payload, the headers, the (absent) `timeout` keyword, and the `verify`
keyword. -/
structure HttpRequest where
  url : String
  payload : List (String × String)
  headers : List (String × String)
  timeout : Option Nat
  verify : Bool

/-- What the network does with one issued request: either the transport
fails (connection refused, timeout, TLS failure — `RequestException`),
or a final response arrives with an HTTP status and a body; the body is
`none` when it is not valid JSON (so `response.json()` raises). -/
inductive HttpOutcome where
  | transportError : String → HttpOutcome
  | response : Nat → Option Jval → HttpOutcome

namespace ConfigParser

/-- Embedding of `ConfigParser.read_config` (configparse.py): look
`config_name`/`sect` up in the parsed config file (the file is modelled
by the oracle `cfg`); any failure inside the `try` block is re-raised as
the fixed `Exception("Not valid config name or section")`. -/
def read_config (cfg : String → String → Option String) (config_name sect : String) :
    Except String String :=
  match cfg config_name sect with
  | some v => Except.ok v
  | none => Except.error "Not valid config name or section"

end ConfigParser

/-- Embedding of the module-level `ROUTES` dict construction (main.py
lines 14–18): three eager `read_config` calls at import time; if any of
them raises, the exception propagates and the process does not start, so
the whole construction is an `Except`. On success it is the dict mapping
the three category keys to their configured endpoint strings. -/
def ROUTES (cfg : String → String → Option String) :
    Except String (List (String × String)) := do
  let ofd ← ConfigParser.read_config cfg "model_routes" "OFD"
  let tkg ← ConfigParser.read_config cfg "model_routes" "TKG"
  let causal ← ConfigParser.read_config cfg "model_routes" "CAUSAL"
  return [("OFD", ofd), ("TKG", tkg), ("CAUSAL", causal)]

/-- The marker the executor looks for before the category. -/
def categoryMarker : List Char := "category:".data

/-- The marker the executor looks for before the query text. -/
def queryMarker : List Char := "query:".data

/-- The comma separator used to end the category field. -/
def commaSep : List Char := ",".data

/-- The quote characters Python `strip` removes from the route URL:
single-quote (code 39) and double-quote (code 34). -/
def quoteChars : List Char := [Char.ofNat 39, Char.ofNat 34]

/-- Embedding of main.py line 176:
`classified_task.split("category:")[1].split(",")[0].strip()`. -/
def parseCategory (tl : List Char) : String :=
  (pyStrip (pySplit0 commaSep ((pySplit1 categoryMarker tl).getD []))).asString

/-- Embedding of main.py line 177:
`classified_task.split("query:")[1].strip()`. -/
def parseQuery (tl : List Char) : String :=
  (pyStrip ((pySplit1 queryMarker tl).getD [])).asString

/-- Embedding of main.py line 189: stripping leading and trailing quote
characters from the configured route URL. -/
def stripQuotes (r : String) : String :=
  (pyStripChars quoteChars r.data).asString

/-- The request `requests.post(route_url, json=payload, headers=headers,
verify=False)` issues (main.py lines 193–196): no `timeout` keyword is
passed, and `verify` is the literal `False`. -/
def mkRequest (url query : String) : HttpRequest :=
  { url := url
    payload := [("query", query)]
    headers := [("Content-Type", "application/json")]
    timeout := none
    verify := false }

/-- The string `requests` puts in the `HTTPError` raised by
`raise_for_status`: a 4xx status renders as a client error and a 5xx one
as a server error, mentioning the status code and the URL. -/
def httpErrorStr (status : Nat) (url : String) : String :=
  if status < 500 then toString status ++ " Client Error for url: " ++ url
  else toString status ++ " Server Error for url: " ++ url

/-- The message of the `JSONDecodeError` raised by `response.json()` on a
body that is not valid JSON. -/
def jsonDecodeDetail : String := "Expecting value: line 1 column 1 (char 0)"

/-- Embedding of `execute_task` (main.py lines 166–205). The first
component is the returned dict (either one of the `{"error": ...}` dicts
or the upstream JSON body passed through); the second component records
the request issued to the network oracle, `none` when the function
returns before reaching `requests.post`. `raise_for_status` raises
exactly for statuses in 400–599, and every exception of the `try` body
is caught by the two `except` arms and turned into an error dict. -/
def execute_task (net : HttpRequest → HttpOutcome) (routes : List (String × String))
    (classified_task : String) : Jval × Option HttpRequest :=
  let tl := classified_task.data
  if !pyIn categoryMarker tl || !pyIn queryMarker tl then
    (errObj "Malformed classified task", none)
  else
    let category := parseCategory tl
    let query := parseQuery tl
    match routes.lookup category with
    | none => (errObj ("Invalid category: " ++ category), none)
    | some r =>
      let route_url := stripQuotes r
      let req := mkRequest route_url query
      match net req with
      | HttpOutcome.transportError d =>
        (errObj ("Request failed: " ++ d), some req)
      | HttpOutcome.response status jsonBody =>
        if 400 ≤ status ∧ status < 600 then
          (errObj ("Request failed: " ++ httpErrorStr status route_url), some req)
        else
          match jsonBody with
          | none => (errObj ("Request failed: " ++ jsonDecodeDetail), some req)
          | some v => (v, some req)

/-- The payload of an execution in the sense of the spec
ExecutionResult: the upstream JSON body exactly when the call reaches a
final response that `raise_for_status` accepts and whose body parses as
JSON; `none` on every failure path. -/
def successOf (net : HttpRequest → HttpOutcome) (routes : List (String × String))
    (classified_task : String) : Option Jval :=
  let tl := classified_task.data
  if !pyIn categoryMarker tl || !pyIn queryMarker tl then none
  else
    match routes.lookup (parseCategory tl) with
    | none => none
    | some r =>
      match net (mkRequest (stripQuotes r) (parseQuery tl)) with
      | HttpOutcome.transportError _ => none
      | HttpOutcome.response status jsonBody =>
        if 400 ≤ status ∧ status < 600 then none
        else jsonBody

/-- The sentinel literal shared by the aggregator prompt and the
termination predicate. -/
def sentinel : List Char := "The final answer is:".data

/-- Embedding of `is_termination_msg` (main.py lines 223–225): the
message dict is represented by its `name` and `content` fields. -/
def is_termination_msg (name content : String) : Bool :=
  name == "aggregator_agent" && pyIn sentinel (pyStrip content.data)

/-- Embedding of `process_query` (main.py lines 229–239): the multi-agent
chat is an oracle taking the user input; when it raises, the handler
returns `{"error": str(e)}`, otherwise `{"result": chat_history}`. -/
def process_query (chat : String → Except String Jval) (user_input : String) : Jval :=
  match chat user_input with
  | Except.ok history => Jval.obj [("result", history)]
  | Except.error e => Jval.obj [("error", Jval.str e)]

/-- Embedding of the `user_query` Flask handler (main.py lines 241–251):
the parsed JSON body is an optional dict with string values
(`request.json or {}` makes a missing/null body the empty dict); the
result is the HTTP status plus the JSON response body. -/
def user_query (chat : String → Except String Jval)
    (body : Option (List (String × String))) : Nat × Jval :=
  let data := body.getD []
  let user_input := (data.lookup "user_input").getD ""
  if user_input = "" then
    (400, errObj "No user input provided")
  else
    (200, Jval.obj [("Processed Query", process_query chat user_input)])

/-- Spec-side description: the part of `seg` strictly before the next
occurrence of `sep`, or all of `seg` when `sep` does not occur in it. -/
def specUptoNext (sep seg : List Char) : List Char :=
  match firstOcc sep seg with
  | none => seg
  | some j => seg.take j

/-- Spec-side description: the text strictly after the first occurrence
of `sep` in `s`, to the end of `s`. -/
def specAfterFirst (sep s : List Char) : Option (List Char) :=
  (firstOcc sep s).map fun i => s.drop (i + sep.length)

/-- The category extraction exactly as claim C10 words it: the text
strictly after the first `category:` up to the first subsequent comma,
stripped. -/
def claimCategoryOf (tl : List Char) : Option String :=
  (specAfterFirst categoryMarker tl).map fun seg =>
    (pyStrip (specUptoNext commaSep seg)).asString

/-- The category extraction as the code actually behaves, in positional
terms: the text strictly after the first `category:`, truncated at the
next occurrence of `category:` (if any), then truncated at the first
comma, stripped. -/
def amendedCategoryOf (tl : List Char) : Option String :=
  (specAfterFirst categoryMarker tl).map fun seg =>
    (pyStrip (specUptoNext commaSep (specUptoNext categoryMarker seg))).asString

/-- The query extraction as claim C10 words it: the text strictly
between the first and second occurrences of `query:` (to the end when
there is no second occurrence), stripped. -/
def claimQueryOf (tl : List Char) : Option String :=
  (specAfterFirst queryMarker tl).map fun seg =>
    (pyStrip (specUptoNext queryMarker seg)).asString

/-- A fully populated route table used for concrete scenarios. -/
def demoRoutes : List (String × String) :=
  [("OFD", "http://ofd.local"), ("TKG", "http://tkg.local"), ("CAUSAL", "http://causal.local")]

/-- A route table with the CAUSAL key unset (spec §8 Scenario B). -/
def routesNoCausal : List (String × String) :=
  [("OFD", "http://ofd.local"), ("TKG", "http://tkg.local")]

/-- A classified-task string used for concrete scenarios. -/
def taskTKG : String := "category:TKG, query:gdp trend"

/-- A network on which every request draws HTTP 304 with a JSON body —
a non-2xx final status that `raise_for_status` does not raise on. -/
def net304 : HttpRequest → HttpOutcome :=
  fun _ => HttpOutcome.response 304 (some (Jval.obj [("answer", Jval.str "rising")]))

/-- A network on which every request draws HTTP 300 with a JSON body. -/
def net300 : HttpRequest → HttpOutcome :=
  fun _ => HttpOutcome.response 300 (some (Jval.obj [("choices", Jval.arr [])]))

/-- A network on which every request draws HTTP 500 with a JSON body. -/
def net500 : HttpRequest → HttpOutcome :=
  fun _ => HttpOutcome.response 500 (some Jval.null)

/-- A network on which every request succeeds with HTTP 200 and JSON. -/
def netOk : HttpRequest → HttpOutcome :=
  fun _ => HttpOutcome.response 200 (some (Jval.obj [("answer", Jval.str "rising")]))

/-- A network on which every connection is refused. -/
def netDown : HttpRequest → HttpOutcome :=
  fun _ => HttpOutcome.transportError "connection refused"

/-- A network on which every request draws HTTP 200 with a body that is
not valid JSON. -/
def netBad : HttpRequest → HttpOutcome :=
  fun _ => HttpOutcome.response 200 none

/-- A chat oracle on which `initiate_chat` raises. -/
def chatFail : String → Except String Jval := fun _ => Except.error "boom"

/-- Correctness of the Boolean prefix test on character lists. -/
theorem isPrefixOf_true_iff {l₁ l₂ : List Char} : l₁.isPrefixOf l₂ = true ↔ l₁ <+: l₂ :=
  List.isPrefixOf_iff_prefix

/-- The first-occurrence split agrees with the positional description:
it cuts at the first index where `sep` occurs. -/
theorem splitFirst_eq (sep s : List Char) :
    listSplitFirst sep s = (firstOcc sep s).map fun i => (s.take i, s.drop (i + sep.length)) := by
  induction s with
  | nil =>
    by_cases h : sep.isPrefixOf ([] : List Char) = true <;> simp [listSplitFirst, firstOcc, h]
  | cons c rest ih =>
    by_cases h : sep.isPrefixOf (c :: rest) = true
    · simp [listSplitFirst, firstOcc, h]
    · simp only [listSplitFirst, firstOcc, h, if_false, ih]
      cases hf : firstOcc sep rest with
      | none => simp
      | some i =>
        simp [List.take_succ_cons, Nat.add_right_comm, List.drop_succ_cons]

/-- `firstOcc` finds an index exactly when `sep` occurs somewhere in `s`
as a contiguous block. -/
theorem firstOcc_isSome_iff (sep s : List Char) :
    (firstOcc sep s).isSome = true ↔ sep <:+: s := by
  induction s with
  | nil =>
    by_cases h : sep.isPrefixOf ([] : List Char) = true
    · have hs : sep = [] := by
        have := isPrefixOf_true_iff.mp h
        simpa using this
      simp [firstOcc, h, hs]
    · have hs : sep ≠ [] := by
        intro hn
        rw [hn] at h
        simp [List.isPrefixOf] at h
      simp [firstOcc, h, hs]
  | cons c rest ih =>
    by_cases h : sep.isPrefixOf (c :: rest) = true
    · simp only [firstOcc, h, if_true, Option.isSome_some, true_iff]
      exact List.IsPrefix.isInfix (isPrefixOf_true_iff.mp h)
    · simp only [firstOcc]
      rw [if_neg h]
      have hmap : (Option.map (· + 1) (firstOcc sep rest)).isSome
          = (firstOcc sep rest).isSome := by
        cases firstOcc sep rest <;> rfl
      rw [hmap, ih, List.infix_cons_iff]
      have hnp : ¬ sep <+: (c :: rest) := fun hp => h (isPrefixOf_true_iff.mpr hp)
      tauto

/-- `pyIn` decides substring containment. -/
theorem pyIn_iff (sub s : List Char) : pyIn sub s = true ↔ sub <:+: s := by
  unfold pyIn
  exact firstOcc_isSome_iff sub s

/-- Python `split(sep)[0]` is the text before the first occurrence of
`sep` (all of the string when `sep` does not occur). -/
theorem pySplit0_spec (sep s : List Char) : pySplit0 sep s = specUptoNext sep s := by
  unfold pySplit0 specUptoNext
  rw [splitFirst_eq]
  cases firstOcc sep s <;> simp

/-- Python `split(sep)[1]` is the text strictly after the first
occurrence of `sep`, truncated at the next occurrence of `sep`. -/
theorem pySplit1_spec (sep s : List Char) :
    pySplit1 sep s = (specAfterFirst sep s).map fun seg => specUptoNext sep seg := by
  unfold pySplit1 specAfterFirst
  rw [splitFirst_eq]
  cases firstOcc sep s <;> simp [pySplit0_spec]

/-- C2: the termination predicate returns true if and only if the
sender name of the message is the aggregator agent and the trimmed message
content contains the fixed sentinel "The final answer is:" as a
substring; hence it is false for any other sender regardless of content,
and false for aggregator messages lacking the sentinel. -/
theorem is_termination_msg_iff (name content : String) :
    is_termination_msg name content = true ↔
      name = "aggregator_agent" ∧ sentinel <:+: pyStrip content.data := by
  unfold is_termination_msg
  rw [Bool.and_eq_true, beq_iff_eq, pyIn_iff]

/-- C3: the ROUTES construction at startup succeeds exactly when all
three of the fixed categories OFD, TKG, CAUSAL have a configured
endpoint (otherwise the `read_config` exception propagates and the
process does not start), and for each of the three categories resolution
succeeds iff the configuration provides that key. -/
theorem ROUTES_iff_config (cfg : String → String → Option String) :
    ((∃ r, ROUTES cfg = Except.ok r) ↔
      (cfg "model_routes" "OFD").isSome = true ∧ (cfg "model_routes" "TKG").isSome = true ∧
        (cfg "model_routes" "CAUSAL").isSome = true)
    ∧ ((∃ v, ConfigParser.read_config cfg "model_routes" "OFD" = Except.ok v)
        ↔ (cfg "model_routes" "OFD").isSome = true)
    ∧ ((∃ v, ConfigParser.read_config cfg "model_routes" "TKG" = Except.ok v)
        ↔ (cfg "model_routes" "TKG").isSome = true)
    ∧ ((∃ v, ConfigParser.read_config cfg "model_routes" "CAUSAL" = Except.ok v)
        ↔ (cfg "model_routes" "CAUSAL").isSome = true) := by
  cases h1 : cfg "model_routes" "OFD" <;>
    cases h2 : cfg "model_routes" "TKG" <;>
      cases h3 : cfg "model_routes" "CAUSAL" <;>
        simp [ROUTES, ConfigParser.read_config, h1, h2, h3, Bind.bind, Except.bind, Pure.pure, Except.pure]

/-- C7: a classified-task string missing either the marker `category:`
or the marker `query:` makes `execute_task` return the malformed-task
error dict, with no outbound request issued and nothing raised. -/
theorem malformed_task_error (net : HttpRequest → HttpOutcome)
    (routes : List (String × String)) (task : String)
    (h : pyIn categoryMarker task.data = false ∨ pyIn queryMarker task.data = false) :
    execute_task net routes task = (errObj "Malformed classified task", none) := by
  unfold execute_task
  rcases h with h | h <;> simp [h]

/-- C7 witness: the string `hello` lacks both markers and draws the
malformed-task error. -/
theorem malformed_task_error_witness :
    (pyIn categoryMarker "hello".data = false ∨ pyIn queryMarker "hello".data = false)
    ∧ execute_task net304 demoRoutes "hello" = (errObj "Malformed classified task", none) :=
  ⟨Or.inl (by decide), malformed_task_error net304 demoRoutes "hello" (Or.inl (by decide))⟩

/-- C8: when the parsed category is not a key of the route table,
`execute_task` returns the invalid-category error naming that category,
with no outbound request issued and nothing raised. -/
theorem invalid_category_error (net : HttpRequest → HttpOutcome)
    (routes : List (String × String)) (task : String)
    (h1 : pyIn categoryMarker task.data = true) (h2 : pyIn queryMarker task.data = true)
    (h3 : routes.lookup (parseCategory task.data) = none) :
    execute_task net routes task
      = (errObj ("Invalid category: " ++ parseCategory task.data), none) := by
  unfold execute_task
  simp [h1, h2, h3]

/-- C8 witness: spec §8 Scenario B — a CAUSAL task against a route table
with the CAUSAL key unset draws the invalid-category error and issues no
request. -/
theorem invalid_category_error_witness :
    pyIn categoryMarker "category:CAUSAL, query:does X cause Y".data = true
    ∧ pyIn queryMarker "category:CAUSAL, query:does X cause Y".data = true
    ∧ routesNoCausal.lookup (parseCategory "category:CAUSAL, query:does X cause Y".data) = none
    ∧ execute_task netOk routesNoCausal "category:CAUSAL, query:does X cause Y"
        = (errObj ("Invalid category: "
            ++ parseCategory "category:CAUSAL, query:does X cause Y".data), none) :=
  ⟨by decide, by decide, by decide,
    invalid_category_error netOk routesNoCausal "category:CAUSAL, query:does X cause Y"
      (by decide) (by decide) (by decide)⟩

/-- Shape of the request log: `execute_task` either issues no request,
or issues exactly the `requests.post` call built from the resolved,
quote-stripped route and the parsed query. -/
theorem execute_task_issued (net : HttpRequest → HttpOutcome)
    (routes : List (String × String)) (task : String) :
    (execute_task net routes task).2 = none
    ∨ ∃ r, routes.lookup (parseCategory task.data) = some r
        ∧ (execute_task net routes task).2
            = some (mkRequest (stripQuotes r) (parseQuery task.data)) := by
  simp only [execute_task]
  split
  · exact Or.inl rfl
  · split
    · exact Or.inl rfl
    next r heq =>
      split
      · exact Or.inr ⟨r, heq, rfl⟩
      · split
        · exact Or.inr ⟨r, heq, rfl⟩
        · split
          · exact Or.inr ⟨r, heq, rfl⟩
          · exact Or.inr ⟨r, heq, rfl⟩

/-- C5: for every execution, exactly one of payload and error is set —
either the run failed, no payload exists, and the returned dict is an
error record, or a payload exists and is returned unchanged. -/
theorem execute_task_payload_xor_error (net : HttpRequest → HttpOutcome)
    (routes : List (String × String)) (task : String) :
    (successOf net routes task = none
      ∧ ∃ msg, (execute_task net routes task).1 = errObj msg)
    ∨ (∃ v, successOf net routes task = some v
        ∧ (execute_task net routes task).1 = v) := by
  simp only [execute_task, successOf]
  split
  · exact Or.inl ⟨rfl, _, rfl⟩
  · split
    · exact Or.inl ⟨rfl, _, rfl⟩
    · split
      · exact Or.inl ⟨rfl, _, rfl⟩
      · split
        · exact Or.inl ⟨rfl, _, rfl⟩
        · split
          · exact Or.inl ⟨rfl, _, rfl⟩
          next v heq => exact Or.inr ⟨v, rfl, rfl⟩

/-- C4 counterexample: on a concrete successful run the issued request
carries no timeout bound at all and has TLS verification disabled, so
the request is not issued with a bounded timeout nor with verification
on by default. -/
theorem request_verify_timeout_cex :
    (execute_task netOk demoRoutes taskTKG).2 = some (mkRequest "http://tkg.local" "gdp trend")
    ∧ (mkRequest "http://tkg.local" "gdp trend").timeout = none
    ∧ (mkRequest "http://tkg.local" "gdp trend").verify = false :=
  ⟨rfl, rfl, rfl⟩

/-- C4 amended: every outbound request issued by `execute_task` is
issued with no timeout (the `timeout` keyword is never passed) and with
TLS certificate verification disabled (`verify=False`, hardcoded). -/
theorem request_no_timeout_no_verify (net : HttpRequest → HttpOutcome)
    (routes : List (String × String)) (task : String) (req : HttpRequest)
    (h : (execute_task net routes task).2 = some req) :
    req.timeout = none ∧ req.verify = false := by
  rcases execute_task_issued net routes task with h0 | ⟨r, _, h1⟩
  · rw [h0] at h
    cases h
  · rw [h1] at h
    injection h with h
    rw [← h]
    exact ⟨rfl, rfl⟩

/-- C4 witness: a transport failure still records the one issued
request, and that request has no timeout and no TLS verification. -/
theorem request_no_timeout_no_verify_witness :
    (execute_task netDown demoRoutes taskTKG).2 = some (mkRequest "http://tkg.local" "gdp trend")
    ∧ (mkRequest "http://tkg.local" "gdp trend").timeout = none
    ∧ (mkRequest "http://tkg.local" "gdp trend").verify = false :=
  ⟨rfl,
    (request_no_timeout_no_verify netDown demoRoutes taskTKG
      (mkRequest "http://tkg.local" "gdp trend") rfl).1,
    (request_no_timeout_no_verify netDown demoRoutes taskTKG
      (mkRequest "http://tkg.local" "gdp trend") rfl).2⟩

/-- C1 counterexample: a final non-2xx status (304) with a JSON body is
not captured as an error value — `raise_for_status` only raises on
4xx/5xx, so `execute_task` returns the body as the result with no error
recorded. -/
theorem execute_task_non2xx_payload_cex :
    net304 (mkRequest (stripQuotes "http://tkg.local") (parseQuery taskTKG.data))
      = HttpOutcome.response 304 (some (Jval.obj [("answer", Jval.str "rising")]))
    ∧ (execute_task net304 demoRoutes taskTKG).1 = Jval.obj [("answer", Jval.str "rising")]
    ∧ isErrorDict (execute_task net304 demoRoutes taskTKG).1 = false :=
  ⟨rfl, rfl, by decide⟩

/-- C1 amended: `execute_task` is a total function (nothing propagates
outward), and each failure mode — malformed task string, unknown
category, transport failure, HTTP 4xx/5xx status, non-JSON response
body — is captured as an error dict inside the returned result. -/
theorem execute_task_failure_modes (net : HttpRequest → HttpOutcome)
    (routes : List (String × String)) (task : String) :
    ((pyIn categoryMarker task.data = false ∨ pyIn queryMarker task.data = false) →
      execute_task net routes task = (errObj "Malformed classified task", none))
    ∧ (pyIn categoryMarker task.data = true → pyIn queryMarker task.data = true →
      routes.lookup (parseCategory task.data) = none →
      execute_task net routes task
        = (errObj ("Invalid category: " ++ parseCategory task.data), none))
    ∧ (∀ r d, routes.lookup (parseCategory task.data) = some r →
      net (mkRequest (stripQuotes r) (parseQuery task.data)) = HttpOutcome.transportError d →
      pyIn categoryMarker task.data = true → pyIn queryMarker task.data = true →
      (execute_task net routes task).1 = errObj ("Request failed: " ++ d))
    ∧ (∀ r s b, routes.lookup (parseCategory task.data) = some r →
      net (mkRequest (stripQuotes r) (parseQuery task.data)) = HttpOutcome.response s b →
      pyIn categoryMarker task.data = true → pyIn queryMarker task.data = true →
      400 ≤ s → s < 600 →
      (execute_task net routes task).1
        = errObj ("Request failed: " ++ httpErrorStr s (stripQuotes r)))
    ∧ (∀ r s, routes.lookup (parseCategory task.data) = some r →
      net (mkRequest (stripQuotes r) (parseQuery task.data)) = HttpOutcome.response s none →
      pyIn categoryMarker task.data = true → pyIn queryMarker task.data = true →
      ¬(400 ≤ s ∧ s < 600) →
      (execute_task net routes task).1 = errObj ("Request failed: " ++ jsonDecodeDetail)) := by
  refine ⟨?_, ?_, ?_, ?_, ?_⟩
  · intro h
    unfold execute_task
    rcases h with h | h <;> simp [h]
  · intro h1 h2 h3
    unfold execute_task
    simp [h1, h2, h3]
  · intro r d hr hn h1 h2
    unfold execute_task
    simp [h1, h2, hr, hn]
  · intro r s b hr hn h1 h2 hs4 hs6
    unfold execute_task
    simp [h1, h2, hr, hn, hs4, hs6]
  · intro r s hr hn h1 h2 hs
    unfold execute_task
    simp [h1, h2, hr, hn, hs]

/-- C1 witness: one concrete run per captured failure mode — missing
markers, unset route key, refused connection, HTTP 500, and a 200
response whose body is not JSON. -/
theorem execute_task_failure_modes_witness :
    execute_task net304 demoRoutes "hello" = (errObj "Malformed classified task", none)
    ∧ execute_task netOk routesNoCausal "category:CAUSAL, query:does X cause Y"
        = (errObj ("Invalid category: "
            ++ parseCategory "category:CAUSAL, query:does X cause Y".data), none)
    ∧ (execute_task netDown demoRoutes taskTKG).1
        = errObj ("Request failed: " ++ "connection refused")
    ∧ (execute_task net500 demoRoutes taskTKG).1
        = errObj ("Request failed: " ++ httpErrorStr 500 (stripQuotes "http://tkg.local"))
    ∧ (execute_task netBad demoRoutes taskTKG).1
        = errObj ("Request failed: " ++ jsonDecodeDetail) :=
  ⟨(execute_task_failure_modes net304 demoRoutes "hello").1 (Or.inl (by decide)),
    (execute_task_failure_modes netOk routesNoCausal "category:CAUSAL, query:does X cause Y").2.1
      (by decide) (by decide) (by decide),
    (execute_task_failure_modes netDown demoRoutes taskTKG).2.2.1
      "http://tkg.local" "connection refused" (by decide) rfl (by decide) (by decide),
    (execute_task_failure_modes net500 demoRoutes taskTKG).2.2.2.1
      "http://tkg.local" 500 (some Jval.null) (by decide) rfl (by decide) (by decide)
      (by decide) (by decide),
    (execute_task_failure_modes netBad demoRoutes taskTKG).2.2.2.2
      "http://tkg.local" 200 (by decide) rfl (by decide) (by decide) (by decide)⟩

/-- C6 counterexample: a final 300 status with a JSON body — a non-2xx
status — is returned as the success payload, with no error recorded. -/
theorem non2xx_not_error_cex :
    net300 (mkRequest (stripQuotes "http://ofd.local")
        (parseQuery "category:OFD, query:deps".data))
      = HttpOutcome.response 300 (some (Jval.obj [("choices", Jval.arr [])]))
    ∧ (execute_task net300 demoRoutes "category:OFD, query:deps").1
        = Jval.obj [("choices", Jval.arr [])]
    ∧ isErrorDict (execute_task net300 demoRoutes "category:OFD, query:deps").1 = false :=
  ⟨rfl, rfl, by decide⟩

/-- C6 amended: when the resolved endpoint answers with a final HTTP
status in 400–599, `execute_task` records the upstream status failure as
its error dict (mentioning the status code), and no success payload
exists for the execution. -/
theorem status_4xx5xx_error (net : HttpRequest → HttpOutcome)
    (routes : List (String × String)) (task : String) (r : String) (s : Nat) (b : Option Jval)
    (h1 : pyIn categoryMarker task.data = true) (h2 : pyIn queryMarker task.data = true)
    (hr : routes.lookup (parseCategory task.data) = some r)
    (hn : net (mkRequest (stripQuotes r) (parseQuery task.data)) = HttpOutcome.response s b)
    (hs4 : 400 ≤ s) (hs6 : s < 600) :
    (execute_task net routes task).1
      = errObj ("Request failed: " ++ httpErrorStr s (stripQuotes r))
    ∧ successOf net routes task = none := by
  unfold execute_task successOf
  simp [h1, h2, hr, hn, hs4, hs6]

/-- C6 witness: spec §8 Scenario C — an upstream HTTP 500 is recorded as
a status error on this execution alone. -/
theorem status_4xx5xx_error_witness :
    (400 ≤ 500 ∧ 500 < 600)
    ∧ (execute_task net500 demoRoutes taskTKG).1
        = errObj ("Request failed: " ++ httpErrorStr 500 (stripQuotes "http://tkg.local"))
    ∧ successOf net500 demoRoutes taskTKG = none :=
  ⟨⟨by decide, by decide⟩,
    (status_4xx5xx_error net500 demoRoutes taskTKG "http://tkg.local" 500 (some Jval.null)
      (by decide) (by decide) (by decide) rfl (by decide) (by decide)).1,
    (status_4xx5xx_error net500 demoRoutes taskTKG "http://tkg.local" 500 (some Jval.null)
      (by decide) (by decide) (by decide) rfl (by decide) (by decide)).2⟩

/-- C9: the `/user_query` handler answers 400 with the fixed error body
exactly when the `user_input` field of the request is missing or empty, and
for every non-empty `user_input` it answers 200 with a body keyed
`Processed Query`; an internal pipeline failure appears as an `error`
field inside that 200 body, never as a non-2xx status. -/
theorem user_query_response (chat : String → Except String Jval)
    (body : Option (List (String × String))) :
    (user_query chat body = (400, errObj "No user input provided")
      ↔ ((body.getD []).lookup "user_input").getD "" = "")
    ∧ (((body.getD []).lookup "user_input").getD "" ≠ "" →
      user_query chat body
        = (200, Jval.obj [("Processed Query",
            process_query chat (((body.getD []).lookup "user_input").getD ""))]))
    ∧ (∀ e, ((body.getD []).lookup "user_input").getD "" ≠ "" →
      chat (((body.getD []).lookup "user_input").getD "") = Except.error e →
      user_query chat body
        = (200, Jval.obj [("Processed Query", Jval.obj [("error", Jval.str e)])])) := by
  by_cases hui : ((body.getD []).lookup "user_input").getD "" = ""
  · refine ⟨?_, ?_, ?_⟩
    · simp [user_query, hui]
    · intro h
      exact absurd hui h
    · intro e hne _
      exact absurd hui hne
  · refine ⟨?_, ?_, ?_⟩
    · constructor
      · intro h
        unfold user_query at h
        rw [if_neg hui] at h
        simp at h
      · intro h
        exact absurd h hui
    · intro _
      unfold user_query
      rw [if_neg hui]
    · intro e hne hch
      unfold user_query
      rw [if_neg hui]
      unfold process_query
      rw [hch]

/-- C9 witness: a non-empty `user_input` whose pipeline run raises still
draws a 200 whose `Processed Query` value carries the error string. -/
theorem user_query_response_witness :
    (((some [("user_input", "hi")] : Option (List (String × String))).getD
        []).lookup "user_input").getD "" ≠ ""
    ∧ user_query chatFail (some [("user_input", "hi")])
        = (200, Jval.obj [("Processed Query", Jval.obj [("error", Jval.str "boom")])]) :=
  ⟨by decide,
    (user_query_response chatFail (some [("user_input", "hi")])).2.2 "boom" (by decide) rfl⟩

/-- C10 counterexample: on a task whose text contains `category:` twice
before the comma, the code truncates the category at the second
`category:` marker, while the description in the claim (text after the first
`category:` up to the first subsequent comma) keeps it whole. -/
theorem parse_category_truncation_cex :
    parseCategory "category:A category:B, query:q".data = "A"
    ∧ claimCategoryOf "category:A category:B, query:q".data = some "A category:B"
    ∧ ("A" : String) ≠ "A category:B" :=
  ⟨by decide, by decide, by decide⟩

/-- C10 amended: whenever both markers occur, the extracted category is
the text strictly after the first `category:`, truncated at the next
occurrence of `category:` (if any), then truncated at the first comma,
stripped of surrounding whitespace; the extracted query is the text
strictly between the first and second occurrences of `query:` (to the
end of the string when `query:` occurs only once), stripped. -/
theorem parse_markers_positional (task : String)
    (h1 : pyIn categoryMarker task.data = true) (h2 : pyIn queryMarker task.data = true) :
    some (parseCategory task.data) = amendedCategoryOf task.data
    ∧ some (parseQuery task.data) = claimQueryOf task.data := by
  have hc : (firstOcc categoryMarker task.data).isSome = true := h1
  have hq : (firstOcc queryMarker task.data).isSome = true := h2
  obtain ⟨i, hi⟩ := Option.isSome_iff_exists.mp hc
  obtain ⟨j, hj⟩ := Option.isSome_iff_exists.mp hq
  constructor
  · rw [parseCategory, pySplit1_spec]
    unfold amendedCategoryOf specAfterFirst
    rw [hi]
    simp [pySplit0_spec]
  · rw [parseQuery, pySplit1_spec]
    unfold claimQueryOf specAfterFirst
    rw [hj]
    simp

/-- C10 witness: a well-formed classified task, extracted as the
positional description says. -/
theorem parse_markers_positional_witness :
    pyIn categoryMarker taskTKG.data = true
    ∧ pyIn queryMarker taskTKG.data = true
    ∧ (some (parseCategory taskTKG.data) = amendedCategoryOf taskTKG.data
      ∧ some (parseQuery taskTKG.data) = claimQueryOf taskTKG.data) :=
  ⟨by decide, by decide, parse_markers_positional taskTKG (by decide) (by decide)⟩
